import Mathlib

/-
Verification development for a minimal conrod GUI example application
(src/main.rs).  The program opens a 640x480 window, loads an embedded
font, and runs an event loop that rebuilds a two-widget scene (a grey
root canvas and a centered black "hello" text label) on every update
request, submitting GPU work only when the rendered content changed.

External collaborators (the conrod GUI runtime, the glium rendering
backend and the glutin windowing library) are modelled through the
narrow interfaces the program consumes: an event-ingestion call, a
widget-tree rebuild call, a draw-if-changed call returning optional
primitives gated by content equality with a force-redraw override, an
identifier generator, and fallible construction and presentation calls
whose outcomes are supplied as explicit parameters.
-/

namespace ConrodApp

/-- Colors named by the program (conrod color constants, modelled as an
enumeration; only the two constants the program mentions are needed,
plus a spare to keep the type from being degenerate). -/
inductive Color
  | grey
  | black
  | other (n : Nat)
deriving DecidableEq

/-- Widget identifier: an opaque stable handle, modelled as the index
handed out by the monotonic generator. -/
abbrev WidgetId := Nat

/-- Placement of a widget, as declared by the builder calls the program
makes: a conrod Canvas with no explicit position fills the window, and
the text label is placed in the middle of its named parent. -/
inductive Position
  | fillWindow
  | middleOf (parent : WidgetId)
deriving DecidableEq

/-- Style record accumulated by the Canvas builder chain.  The fields
record exactly the builder calls the program can make on a Canvas:
color and border width.  The border width is an exact value in the
source (the literal 0.0), modelled as an integer. -/
structure CanvasStyle where
  color_val : Option Color
  border_val : Option Int
  position : Position
deriving DecidableEq

/-- Style record accumulated by the Text builder chain: literal text,
color, and placement. -/
structure TextStyle where
  text_val : String
  color_val : Option Color
  position : Option Position
deriving DecidableEq

/-- A declared widget in the tree the Scene Builder emits. -/
inductive WidgetDescr
  | canvas (style : CanvasStyle)
  | text (style : TextStyle)
deriving DecidableEq

/-- The rendered primitives handed to the Frame Renderer are modelled
as the declared widget tree itself: the draw-if-changed gate compares
them for equality, and nothing in this program inspects them further. -/
abbrev Primitives := List (WidgetId × WidgetDescr)

/-- Canvas builder: a conrod Canvas with no explicit position occupies
the whole window, so the default placement is fillWindow. -/
def Canvas.new : CanvasStyle :=
  { color_val := none, border_val := none, position := Position.fillWindow }

/-- Builder call .color on a Canvas. -/
def CanvasStyle.color (c : CanvasStyle) (col : Color) : CanvasStyle :=
  { c with color_val := some col }

/-- Builder call .border on a Canvas. -/
def CanvasStyle.border (c : CanvasStyle) (b : Int) : CanvasStyle :=
  { c with border_val := some b }

/-- Text builder with its literal text. -/
def Text.new (s : String) : TextStyle :=
  { text_val := s, color_val := none, position := none }

/-- Builder call .color on a Text. -/
def TextStyle.color (t : TextStyle) (col : Color) : TextStyle :=
  { t with color_val := some col }

/-- Builder call .middle_of on a Text: center the label inside the
named parent widget. -/
def TextStyle.middle_of (t : TextStyle) (parent : WidgetId) : TextStyle :=
  { t with position := some (Position.middleOf parent) }

/-- The identifier generator exposed by the GUI runtime: a monotonic
counter whose next call returns the current index and advances. -/
structure Generator where
  next_index : Nat
deriving DecidableEq

/-- One allocation step of the generator. -/
def Generator.next (g : Generator) : WidgetId × Generator :=
  (g.next_index, ⟨g.next_index + 1⟩)

/-- The widget identifier registry of the program: one identifier for
the root canvas and one for the text label (struct Ids in main.rs). -/
structure Ids where
  root : WidgetId
  label : WidgetId
deriving DecidableEq

/-- Ids::new — allocate the two identifiers from the generator, root
first, then label. -/
def Ids.new (gen : Generator) : Ids × Generator :=
  let r := gen.next
  let l := r.2.next
  ({ root := r.1, label := l.1 }, l.2)

/-- A translated GUI-runtime input event.  The translation is performed
by the external winit backend of conrod; its payload is opaque to the
program, so it is modelled as an abstract tag. -/
structure ConrodEvent where
  payload : Nat
deriving DecidableEq

/-- The font handle produced by the font loader; opaque to the program. -/
structure Font where
  tag : Nat
deriving DecidableEq

/-- The retained state of the GUI runtime that the program interacts
with: the identifier generator counter, the widget tree being built for
the current frame, the content of the last drawn frame (for the
content-equality gate), the force-redraw flag, the queue of ingested
input events, the installed fonts, and the window dimensions the
runtime was initialized with. -/
structure Ui where
  gen : Generator
  widgets : Primitives
  prev_primitives : Option Primitives
  redraw_forced : Bool
  pending_events : List ConrodEvent
  fonts : List Font
  win_dim : Nat × Nat
deriving DecidableEq

/-- conrod UiBuilder::new sized to the given pixel dimensions. -/
structure UiBuilder where
  dim : Nat × Nat
deriving DecidableEq

def UiBuilder.new (dim : Nat × Nat) : UiBuilder := ⟨dim⟩

/-- Build the GUI runtime state: fresh generator, empty widget tree, no
previous frame, redraw flag clear, no pending events, no fonts. -/
def UiBuilder.build (b : UiBuilder) : Ui :=
  { gen := ⟨0⟩
  , widgets := []
  , prev_primitives := none
  , redraw_forced := false
  , pending_events := []
  , fonts := []
  , win_dim := b.dim }

/-- The GUI runtime call that ingests one translated input event. -/
def Ui.handle_event (ui : Ui) (e : ConrodEvent) : Ui :=
  { ui with pending_events := ui.pending_events ++ [e] }

/-- The GUI runtime call that marks the whole surface as needing a full
redraw: it forces the next draw-if-changed check to yield primitives. -/
def Ui.needs_redraw (ui : Ui) : Ui :=
  { ui with redraw_forced := true }

/-- The identifier generator handle borrowed from the runtime. -/
def Ui.widget_id_generator (ui : Ui) : Generator := ui.gen

/-- The per-frame rebuild entry point: opens a fresh widget tree for
this frame. -/
def Ui.set_widgets (ui : Ui) : Ui :=
  { ui with widgets := [] }

/-- Install one declared widget under its identifier into the frame
being built. -/
def Ui.set_widget (ui : Ui) (id : WidgetId) (w : WidgetDescr) : Ui :=
  { ui with widgets := ui.widgets ++ [(id, w)] }

/-- Install the font into the runtime font collection
(app.ui.fonts.insert in the source). -/
def Ui.fonts_insert (ui : Ui) (f : Font) : Ui :=
  { ui with fonts := ui.fonts ++ [f] }

/-- The draw-if-changed gate of the GUI runtime: yields the primitives
of the freshly built tree when the force-redraw flag is set or the
content differs from the previously drawn frame, recording the drawn
content and clearing the flag; otherwise yields nothing and the state
is untouched. -/
def Ui.draw_if_changed (ui : Ui) : Option Primitives × Ui :=
  if ui.redraw_forced = true ∨ ui.prev_primitives ≠ some ui.widgets then
    (some ui.widgets,
     { ui with redraw_forced := false, prev_primitives := some ui.widgets })
  else
    (none, ui)

/-- Builder call .set for a Canvas: installs the canvas under its
identifier into the frame being built. -/
def CanvasStyle.set (c : CanvasStyle) (id : WidgetId) (ui : Ui) : Ui :=
  ui.set_widget id (WidgetDescr.canvas c)

/-- Builder call .set for a Text widget. -/
def TextStyle.set (t : TextStyle) (id : WidgetId) (ui : Ui) : Ui :=
  ui.set_widget id (WidgetDescr.text t)

/-- Requested window parameters (glutin WindowBuilder). -/
structure WindowBuilder where
  dimensions : Nat × Nat
  title : String
deriving DecidableEq

/-- Requested GL context parameters (glutin ContextBuilder). -/
structure ContextBuilder where
  vsync : Bool
  multisampling : Nat
deriving DecidableEq

/-- The drawing surface handle: it remembers the window and context
parameters it was created with. -/
structure Display where
  window : WindowBuilder
  context : ContextBuilder
deriving DecidableEq

/-- The image registry (conrod image::Map), empty in this program. -/
structure ImageMap where
  entries : List Nat
deriving DecidableEq

def ImageMap.new : ImageMap := ⟨[]⟩

/-- The conrod glium renderer handle; opaque to the program. -/
structure Renderer where
  tag : Nat
deriving DecidableEq

/-- The application state bundle (struct App in main.rs). -/
structure App where
  ui : Ui
  display : Display
  image_map : ImageMap
  ids : Ids
  renderer : Renderer
deriving DecidableEq

/-- create_ui — the Scene Builder: rebuild the declarative widget tree
for this frame: a grey borderless root canvas and a black "hello" text
label centered in the root. -/
def create_ui (app : App) : App :=
  let ui := app.ui.set_widgets
  let ids := app.ids
  let ui := (((Canvas.new).color Color.grey).border 0).set ids.root ui
  let ui := ((((Text.new "hello").color Color.black).middle_of ids.root)).set ids.label ui
  { app with ui := ui }

/-- Key press or release, as carried by a glutin keyboard event. -/
inductive ElementState
  | pressed
  | released
deriving DecidableEq

/-- Virtual key codes; only Escape is inspected by the program, every
other key is abstracted by its code. -/
inductive VirtualKeyCode
  | escape
  | otherKey (n : Nat)
deriving DecidableEq

/-- The payload of a glutin keyboard event: press or release state and
the optional decoded virtual key code.  The source pattern match binds
only the virtual key code and ignores the rest. -/
structure KeyboardInput where
  state : ElementState
  virtual_keycode : Option VirtualKeyCode
deriving DecidableEq

/-- Window-scoped glutin events the program matches on: keyboard input,
window close, refresh, resize; every other window event is
abstracted by a tag and falls into the catch-all arm. -/
inductive WindowEvent
  | keyboardInput (input : KeyboardInput)
  | closed
  | refresh
  | resized (w h : Nat)
  | otherWindow (n : Nat)
deriving DecidableEq

/-- Top-level glutin events: a window event, the Awakened wake-up
signal, or any other platform event (abstracted by a tag), which falls
into the catch-all arm. -/
inductive GlutinEvent
  | windowEvent (e : WindowEvent)
  | awakened
  | otherEvent (n : Nat)
deriving DecidableEq

/-- The synthetic event type of the event-loop glue: either a wrapped
platform event or the manufactured update-requested event. -/
inductive GlueEvent
  | glutin (e : GlutinEvent)
  | updateUi
deriving DecidableEq

/-- The loop control handle the handler may mutate: whether another
update pass has been requested and whether loop termination has been
requested. -/
structure EventLoopControl where
  update_requested : Bool
  exit_requested : Bool
deriving DecidableEq

/-- Fresh control handle for one handler invocation. -/
def EventLoopControl.new : EventLoopControl :=
  { update_requested := false, exit_requested := false }

/-- control.needs_update() — request that another update-requested
event be produced promptly. -/
def EventLoopControl.needs_update (c : EventLoopControl) : EventLoopControl :=
  { c with update_requested := true }

/-- control.exit() — request loop termination. -/
def EventLoopControl.exit (c : EventLoopControl) : EventLoopControl :=
  { c with exit_requested := true }

/-- Outcomes of the fallible external calls the program makes.  Each
field stands for the result the corresponding external library call
would produce: none (or false) means that call fails.  The program
itself never constructs these; they parameterize the run. -/
structure External where
  display_ok : Bool
  inner_size : Option (Nat × Nat)
  renderer_new : Option Renderer
  font_parse : Option Font
  draw_ok : Bool
  finish_ok : Bool
deriving DecidableEq

/-- The .expect(msg) idiom: a missing value aborts the process with the
given diagnostic message, modelled as an error value that propagates
unconditionally to the top. -/
def expectMsg (o : Option α) (msg : String) : Except String α :=
  match o with
  | some a => Except.ok a
  | none => Except.error msg

/-- glium Display::new — creates the drawing surface from the requested
window and context parameters; fails when the platform cannot provide
a window or GL context. -/
def glium_display_new (w : WindowBuilder) (c : ContextBuilder) (ok : Bool) :
    Option Display :=
  if ok then some { window := w, context := c } else none

/-- rusttype font parsing of the embedded bytes, as surfaced to the
program: the external outcome of collection.into_font(). -/
def rusttype_into_font (ext : External) : Option Font := ext.font_parse

/-- load_font — parse the embedded OpenSans-Regular.ttf bytes, aborting
with a diagnostic when the bytes do not parse as a font. -/
def load_font (ext : External) : Except String Font :=
  expectMsg (rusttype_into_font ext)
    "expected loading embedded OpenSans-Regular.ttf font to succeed"

/-- App::new — query the window inner size, build the GUI runtime sized
to it, construct the renderer, create the empty image registry,
allocate the two widget identifiers from the runtime generator, and
assemble the application state. -/
def App.new (ext : External) (window : Display) : Except String App := do
  let wh ← expectMsg ext.inner_size
    "expected getting window size to succeed."
  let ui := (UiBuilder.new (wh.1, wh.2)).build
  let renderer ← expectMsg ext.renderer_new
    "expected loading conrod glium renderer to succeed."
  let image_map := ImageMap.new
  let idsGen := Ids.new ui.widget_id_generator
  let ui := { ui with gen := idsGen.2 }
  Except.ok
    { ui := ui
    , display := window
    , image_map := image_map
    , ids := idsGen.1
    , renderer := renderer }

/-- The platform event source handle; opaque to the program. -/
structure EventsLoop where
  tag : Nat
deriving DecidableEq

def EventsLoop.new : EventsLoop := ⟨0⟩

/-- The window parameters the program requests, fixed in the source:
640x480 initial size and the literal title. -/
def window_builder : WindowBuilder :=
  { dimensions := (640, 480), title := "the-conrod-application" }

/-- The GL context parameters the program requests, fixed in the
source: vertical sync on and 4x multisampling. -/
def context_builder : ContextBuilder :=
  { vsync := true, multisampling := 4 }

/-- init_window — create the event source, request a 640x480 window
titled "the-conrod-application" with vsync and 4x multisampling,
create the drawing surface, build the application state, and install
the loaded font. -/
def init_window (ext : External) : Except String (EventsLoop × App) := do
  let events_loop := EventsLoop.new
  let window : WindowBuilder := window_builder
  let context : ContextBuilder := context_builder
  let display ← expectMsg (glium_display_new window context ext.display_ok)
    "expected initial window creation to succeed"
  let app ← App.new ext display
  let font ← load_font ext
  let app := { app with ui := app.ui.fonts_insert font }
  Except.ok (events_loop, app)

/-- Observable actions of one handler invocation, in order: feeding a
translated event to the GUI runtime, rebuilding the scene, and the
three GPU submission steps (renderer.fill, renderer.draw,
target.finish). -/
inductive Action
  | feedUiEvent
  | buildScene
  | fill
  | draw
  | finishFrame
deriving DecidableEq

/-- Result of one handler invocation: the mutated application state,
the mutated control handle, the ordered trace of observable actions,
and whether the invocation completed or aborted the process with a
diagnostic. -/
structure StepResult where
  app : App
  control : EventLoopControl
  trace : List Action
  outcome : Except String Unit

/-- The body of the run_loop closure in main: dispatch one glue event.
A platform event is first translated by the external converter and, if
it translates, fed to the GUI runtime with an update requested; the
raw event is then inspected for Escape-or-close (request exit),
refresh-or-resize and Awakened (force redraw and request an update).
An update-requested event runs the Scene Builder and then, only when
the draw-if-changed gate yields primitives, the fill-draw-present GPU
sequence, aborting on a draw or finish failure.  The converter is the
external conrod winit backend, passed in as a parameter. -/
def handler (conv : GlutinEvent → Option ConrodEvent) (ext : External)
    (app : App) (control : EventLoopControl) (ev : GlueEvent) : StepResult :=
  match ev with
  | GlueEvent.glutin event =>
    let fed :=
      match conv event with
      | some ce =>
        ({ app with ui := app.ui.handle_event ce }, control.needs_update,
         [Action.feedUiEvent])
      | none => (app, control, [])
    let app1 := fed.1
    let control1 := fed.2.1
    let tr1 := fed.2.2
    match event with
    | GlutinEvent.windowEvent we =>
      match we with
      | WindowEvent.keyboardInput ⟨_, some VirtualKeyCode.escape⟩ =>
        { app := app1, control := control1.exit, trace := tr1,
          outcome := Except.ok () }
      | WindowEvent.closed =>
        { app := app1, control := control1.exit, trace := tr1,
          outcome := Except.ok () }
      | WindowEvent.refresh =>
        { app := { app1 with ui := app1.ui.needs_redraw },
          control := control1.needs_update, trace := tr1,
          outcome := Except.ok () }
      | WindowEvent.resized _ _ =>
        { app := { app1 with ui := app1.ui.needs_redraw },
          control := control1.needs_update, trace := tr1,
          outcome := Except.ok () }
      | _ =>
        { app := app1, control := control1, trace := tr1,
          outcome := Except.ok () }
    | GlutinEvent.awakened =>
      { app := { app1 with ui := app1.ui.needs_redraw },
        control := control1.needs_update, trace := tr1,
        outcome := Except.ok () }
    | _ =>
      { app := app1, control := control1, trace := tr1,
        outcome := Except.ok () }
  | GlueEvent.updateUi =>
    let app1 := create_ui app
    match app1.ui.draw_if_changed with
    | (some _, ui2) =>
      let app2 := { app1 with ui := ui2 }
      if ext.draw_ok then
        if ext.finish_ok then
          { app := app2, control := control,
            trace := [Action.buildScene, Action.fill, Action.draw,
                      Action.finishFrame],
            outcome := Except.ok () }
        else
          { app := app2, control := control,
            trace := [Action.buildScene, Action.fill, Action.draw,
                      Action.finishFrame],
            outcome := Except.error
              "expected frame to remain unfinished before calling finish." }
      else
        { app := app2, control := control,
          trace := [Action.buildScene, Action.fill, Action.draw],
          outcome := Except.error
            "expected drawing GUI to display to succeed" }
    | (none, ui2) =>
      { app := { app1 with ui := ui2 }, control := control,
        trace := [Action.buildScene], outcome := Except.ok () }

/-- The raw-event condition under which the dispatch code requests loop
exit: a keyboard event whose virtual key code is Escape (the source
pattern ignores the press or release state), or a window-close event. -/
def is_exit_event : GlutinEvent → Bool
  | GlutinEvent.windowEvent (WindowEvent.keyboardInput ⟨_, some VirtualKeyCode.escape⟩) => true
  | GlutinEvent.windowEvent WindowEvent.closed => true
  | _ => false

/-- The raw-event condition under which the dispatch code forces a full
redraw: a window refresh, a window resize, or the Awakened signal. -/
def is_redraw_event : GlutinEvent → Bool
  | GlutinEvent.windowEvent WindowEvent.refresh => true
  | GlutinEvent.windowEvent (WindowEvent.resized _ _) => true
  | GlutinEvent.awakened => true
  | _ => false

/-- Modelled from the spec: the event-loop glue (module glutin_glue;
its source file is not among the provided sources) wraps the platform
event source into a push-style loop.  Per iteration it produces one
synthetic event and invokes the handler with a fresh control handle;
when the handler requested an update, one coalesced update-requested
event is delivered right after the platform events that triggered it;
once exit is requested the loop dispatches no further events; a fatal
handler outcome aborts the run.  The platform input is modelled as the
finite list of events the platform produces, in order; the result is
the final application state, the ordered trace of dispatched glue
events, and the run outcome. -/
def run_loop (conv : GlutinEvent → Option ConrodEvent) (ext : External)
    (app : App) (events : List GlutinEvent) :
    App × List GlueEvent × Except String Unit :=
  match events with
  | [] => (app, [], Except.ok ())
  | e :: rest =>
    let r := handler conv ext app EventLoopControl.new (GlueEvent.glutin e)
    match r.outcome with
    | Except.error msg => (r.app, [GlueEvent.glutin e], Except.error msg)
    | Except.ok _ =>
      if r.control.exit_requested then
        (r.app, [GlueEvent.glutin e], Except.ok ())
      else if r.control.update_requested then
        let r2 := handler conv ext r.app EventLoopControl.new GlueEvent.updateUi
        match r2.outcome with
        | Except.error msg =>
          (r2.app, [GlueEvent.glutin e, GlueEvent.updateUi], Except.error msg)
        | Except.ok _ =>
          if r2.control.exit_requested then
            (r2.app, [GlueEvent.glutin e, GlueEvent.updateUi], Except.ok ())
          else
            let k := run_loop conv ext r2.app rest
            (k.1, GlueEvent.glutin e :: GlueEvent.updateUi :: k.2.1, k.2.2)
      else
        let k := run_loop conv ext r.app rest
        (k.1, GlueEvent.glutin e :: k.2.1, k.2.2)

/-- The dispatch trace the glue produces for a given platform input:
every platform event is forwarded in order, followed by one coalesced
update-requested event whenever that handler invocation requested an
update, and the trace is cut immediately after the first exit-
triggering platform event. -/
def glue_trace (conv : GlutinEvent → Option ConrodEvent) :
    List GlutinEvent → List GlueEvent
  | [] => []
  | e :: rest =>
    if is_exit_event e then [GlueEvent.glutin e]
    else if (conv e).isSome || is_redraw_event e then
      GlueEvent.glutin e :: GlueEvent.updateUi :: glue_trace conv rest
    else
      GlueEvent.glutin e :: glue_trace conv rest

/-- Fold the handler over a list of glue events, each invocation with a
fresh control handle, collecting the final application state. -/
def run_steps (conv : GlutinEvent → Option ConrodEvent) (ext : External)
    (app : App) (evs : List GlueEvent) : App :=
  evs.foldl (fun a ev => (handler conv ext a EventLoopControl.new ev).app) app

/-- The widget tree the Scene Builder emits for a given identifier
registry. -/
def scene (ids : Ids) : Primitives :=
  [ (ids.root,
      WidgetDescr.canvas
        { color_val := some Color.grey
        , border_val := some 0
        , position := Position.fillWindow })
  , (ids.label,
      WidgetDescr.text
        { text_val := "hello"
        , color_val := some Color.black
        , position := some (Position.middleOf ids.root) }) ]

/-- An external world in which every fallible call succeeds. -/
def ext_ok : External :=
  { display_ok := true
  , inner_size := some (640, 480)
  , renderer_new := some ⟨0⟩
  , font_parse := some ⟨0⟩
  , draw_ok := true
  , finish_ok := true }

/-- The application state produced by a fully successful
initialization with a 640x480 surface. -/
def app0 : App :=
  { ui :=
    { gen := ⟨2⟩
    , widgets := []
    , prev_primitives := none
    , redraw_forced := false
    , pending_events := []
    , fonts := [⟨0⟩]
    , win_dim := (640, 480) }
  , display :=
    { window := { dimensions := (640, 480), title := "the-conrod-application" }
    , context := { vsync := true, multisampling := 4 } }
  , image_map := ImageMap.new
  , ids := { root := 0, label := 1 }
  , renderer := ⟨0⟩ }

/-- The drawing surface created when window creation succeeds. -/
def display0 : Display :=
  { window := window_builder, context := context_builder }

/-- The application state App::new assembles from a successful external
world, before the font is installed. -/
def app_new0 : App :=
  { ui :=
    { gen := ⟨2⟩
    , widgets := []
    , prev_primitives := none
    , redraw_forced := false
    , pending_events := []
    , fonts := []
    , win_dim := (640, 480) }
  , display := display0
  , image_map := ImageMap.new
  , ids := { root := 0, label := 1 }
  , renderer := ⟨0⟩ }

/-- An external world whose embedded font bytes fail to parse while
everything else succeeds. -/
def ext_nofont : External :=
  { display_ok := true
  , inner_size := some (640, 480)
  , renderer_new := some ⟨0⟩
  , font_parse := none
  , draw_ok := true
  , finish_ok := true }

/-- Whether a fallible result is a success. -/
def isOk {α : Type} (r : Except String α) : Bool :=
  match r with
  | Except.ok _ => true
  | Except.error _ => false

theorem create_ui_ui (a : App) :
    (create_ui a).ui = { a.ui with widgets := scene a.ids } := rfl

theorem create_ui_ids (a : App) : (create_ui a).ids = a.ids := rfl

theorem handler_glutin_control (conv : GlutinEvent → Option ConrodEvent)
    (ext : External) (app : App) (control : EventLoopControl) (e : GlutinEvent) :
    (handler conv ext app control (GlueEvent.glutin e)).control =
      { update_requested :=
          control.update_requested || (conv e).isSome || is_redraw_event e
      , exit_requested := control.exit_requested || is_exit_event e } := by
  cases e with
  | windowEvent we =>
    cases we with
    | keyboardInput input =>
      obtain ⟨st, vk⟩ := input
      cases vk with
      | none =>
        cases hc : conv (GlutinEvent.windowEvent (WindowEvent.keyboardInput ⟨st, none⟩)) <;>
          simp [handler, is_exit_event, is_redraw_event, hc,
            EventLoopControl.exit, EventLoopControl.needs_update]
      | some k =>
        cases k with
        | escape =>
          cases hc : conv (GlutinEvent.windowEvent
              (WindowEvent.keyboardInput ⟨st, some VirtualKeyCode.escape⟩)) <;>
            simp [handler, is_exit_event, is_redraw_event, hc,
              EventLoopControl.exit, EventLoopControl.needs_update]
        | otherKey kn =>
          cases hc : conv (GlutinEvent.windowEvent
              (WindowEvent.keyboardInput ⟨st, some (VirtualKeyCode.otherKey kn)⟩)) <;>
            simp [handler, is_exit_event, is_redraw_event, hc,
              EventLoopControl.exit, EventLoopControl.needs_update]
    | closed =>
      cases hc : conv (GlutinEvent.windowEvent WindowEvent.closed) <;>
        simp [handler, is_exit_event, is_redraw_event, hc,
          EventLoopControl.exit, EventLoopControl.needs_update]
    | refresh =>
      cases hc : conv (GlutinEvent.windowEvent WindowEvent.refresh) <;>
        simp [handler, is_exit_event, is_redraw_event, hc,
          EventLoopControl.exit, EventLoopControl.needs_update]
    | resized w hh =>
      cases hc : conv (GlutinEvent.windowEvent (WindowEvent.resized w hh)) <;>
        simp [handler, is_exit_event, is_redraw_event, hc,
          EventLoopControl.exit, EventLoopControl.needs_update]
    | otherWindow m =>
      cases hc : conv (GlutinEvent.windowEvent (WindowEvent.otherWindow m)) <;>
        simp [handler, is_exit_event, is_redraw_event, hc,
          EventLoopControl.exit, EventLoopControl.needs_update]
  | awakened =>
    cases hc : conv GlutinEvent.awakened <;>
      simp [handler, is_exit_event, is_redraw_event, hc,
        EventLoopControl.exit, EventLoopControl.needs_update]
  | otherEvent n =>
    cases hc : conv (GlutinEvent.otherEvent n) <;>
      simp [handler, is_exit_event, is_redraw_event, hc,
        EventLoopControl.exit, EventLoopControl.needs_update]

theorem handler_glutin_outcome (conv : GlutinEvent → Option ConrodEvent)
    (ext : External) (app : App) (control : EventLoopControl) (e : GlutinEvent) :
    (handler conv ext app control (GlueEvent.glutin e)).outcome = Except.ok () := by
  cases e with
  | windowEvent we =>
    cases we with
    | keyboardInput input =>
      obtain ⟨st, vk⟩ := input
      cases vk with
      | none =>
        cases hc : conv (GlutinEvent.windowEvent (WindowEvent.keyboardInput ⟨st, none⟩)) <;>
          simp [handler, hc]
      | some k =>
        cases k with
        | escape =>
          cases hc : conv (GlutinEvent.windowEvent
              (WindowEvent.keyboardInput ⟨st, some VirtualKeyCode.escape⟩)) <;>
            simp [handler, hc]
        | otherKey kn =>
          cases hc : conv (GlutinEvent.windowEvent
              (WindowEvent.keyboardInput ⟨st, some (VirtualKeyCode.otherKey kn)⟩)) <;>
            simp [handler, hc]
    | closed =>
      cases hc : conv (GlutinEvent.windowEvent WindowEvent.closed) <;> simp [handler, hc]
    | refresh =>
      cases hc : conv (GlutinEvent.windowEvent WindowEvent.refresh) <;> simp [handler, hc]
    | resized w hh =>
      cases hc : conv (GlutinEvent.windowEvent (WindowEvent.resized w hh)) <;> simp [handler, hc]
    | otherWindow m =>
      cases hc : conv (GlutinEvent.windowEvent (WindowEvent.otherWindow m)) <;> simp [handler, hc]
  | awakened =>
    cases hc : conv GlutinEvent.awakened <;> simp [handler, hc]
  | otherEvent n =>
    cases hc : conv (GlutinEvent.otherEvent n) <;> simp [handler, hc]

theorem handler_update_app_eq (conv : GlutinEvent → Option ConrodEvent)
    (ext : External) (a : App) (c : EventLoopControl) :
    (handler conv ext a c GlueEvent.updateUi).app =
      { create_ui a with ui := ((create_ui a).ui.draw_if_changed).2 } := by
  simp only [handler]
  rcases h : (create_ui a).ui.draw_if_changed with ⟨op, ui2⟩
  rcases op with _ | p
  · simp [h]
  · by_cases hd : ext.draw_ok = true <;> by_cases hf : ext.finish_ok = true <;>
      simp [h, hd, hf]

theorem handler_update_control (conv : GlutinEvent → Option ConrodEvent)
    (ext : External) (a : App) (c : EventLoopControl) :
    (handler conv ext a c GlueEvent.updateUi).control = c := by
  simp only [handler]
  rcases h : (create_ui a).ui.draw_if_changed with ⟨op, ui2⟩
  rcases op with _ | p
  · simp [h]
  · by_cases hd : ext.draw_ok = true <;> by_cases hf : ext.finish_ok = true <;>
      simp [h, hd, hf]

theorem handler_update_trace (conv : GlutinEvent → Option ConrodEvent)
    (ext : External) (a : App) (c : EventLoopControl)
    (hd : ext.draw_ok = true) (hf : ext.finish_ok = true) :
    (handler conv ext a c GlueEvent.updateUi).trace =
      Action.buildScene ::
        (if ((create_ui a).ui.draw_if_changed).1.isSome then
          [Action.fill, Action.draw, Action.finishFrame]
        else []) := by
  simp only [handler]
  rcases h : (create_ui a).ui.draw_if_changed with ⟨op, ui2⟩
  rcases op with _ | p
  · simp [h]
  · simp [h, hd, hf]

theorem handler_update_outcome (conv : GlutinEvent → Option ConrodEvent)
    (ext : External) (a : App) (c : EventLoopControl)
    (hd : ext.draw_ok = true) (hf : ext.finish_ok = true) :
    (handler conv ext a c GlueEvent.updateUi).outcome = Except.ok () := by
  simp only [handler]
  rcases h : (create_ui a).ui.draw_if_changed with ⟨op, ui2⟩
  rcases op with _ | p
  · simp [h]
  · simp [h, hd, hf]

theorem draw_if_changed_after (ui : Ui) :
    ((ui.draw_if_changed).2).prev_primitives = some ui.widgets ∧
    ((ui.draw_if_changed).2).redraw_forced = false ∧
    ((ui.draw_if_changed).2).widgets = ui.widgets ∧
    ((ui.draw_if_changed).2).gen = ui.gen := by
  unfold Ui.draw_if_changed
  split
  · simp
  · next hcond =>
    push_neg at hcond
    rcases hcond with ⟨h1, h2⟩
    simp only [Bool.not_eq_true] at h1
    simp [h1, h2.symm]

theorem draw_if_changed_none_of_unchanged (ui : Ui)
    (h1 : ui.redraw_forced = false) (h2 : ui.prev_primitives = some ui.widgets) :
    (ui.draw_if_changed).1 = none := by
  unfold Ui.draw_if_changed
  rw [if_neg]
  intro hcontra
  rcases hcontra with hc | hc
  · rw [h1] at hc
    exact Bool.false_ne_true hc
  · exact hc h2

theorem handler_app_ids (conv : GlutinEvent → Option ConrodEvent)
    (ext : External) (a : App) (c : EventLoopControl) (ev : GlueEvent) :
    (handler conv ext a c ev).app.ids = a.ids ∧
    (handler conv ext a c ev).app.ui.gen = a.ui.gen := by
  cases ev with
  | glutin e =>
    cases e with
    | windowEvent we =>
      cases we with
      | keyboardInput input =>
        obtain ⟨st, vk⟩ := input
        cases vk with
        | none =>
          cases hc : conv (GlutinEvent.windowEvent (WindowEvent.keyboardInput ⟨st, none⟩)) <;>
            simp [handler, hc, Ui.handle_event, Ui.needs_redraw]
        | some k =>
          cases k with
          | escape =>
            cases hc : conv (GlutinEvent.windowEvent
                (WindowEvent.keyboardInput ⟨st, some VirtualKeyCode.escape⟩)) <;>
              simp [handler, hc, Ui.handle_event, Ui.needs_redraw]
          | otherKey kn =>
            cases hc : conv (GlutinEvent.windowEvent
                (WindowEvent.keyboardInput ⟨st, some (VirtualKeyCode.otherKey kn)⟩)) <;>
              simp [handler, hc, Ui.handle_event, Ui.needs_redraw]
      | closed =>
        cases hc : conv (GlutinEvent.windowEvent WindowEvent.closed) <;>
          simp [handler, hc, Ui.handle_event, Ui.needs_redraw]
      | refresh =>
        cases hc : conv (GlutinEvent.windowEvent WindowEvent.refresh) <;>
          simp [handler, hc, Ui.handle_event, Ui.needs_redraw]
      | resized w hh =>
        cases hc : conv (GlutinEvent.windowEvent (WindowEvent.resized w hh)) <;>
          simp [handler, hc, Ui.handle_event, Ui.needs_redraw]
      | otherWindow m =>
        cases hc : conv (GlutinEvent.windowEvent (WindowEvent.otherWindow m)) <;>
          simp [handler, hc, Ui.handle_event, Ui.needs_redraw]
    | awakened =>
      cases hc : conv GlutinEvent.awakened <;>
        simp [handler, hc, Ui.handle_event, Ui.needs_redraw]
    | otherEvent n =>
      cases hc : conv (GlutinEvent.otherEvent n) <;>
        simp [handler, hc, Ui.handle_event, Ui.needs_redraw]
  | updateUi =>
    rw [handler_update_app_eq]
    refine ⟨rfl, ?_⟩
    have h := (draw_if_changed_after ((create_ui a).ui)).2.2.2
    simpa [create_ui_ui] using h

theorem run_loop_trace (conv : GlutinEvent → Option ConrodEvent) (ext : External)
    (hd : ext.draw_ok = true) (hf : ext.finish_ok = true) :
    ∀ (events : List GlutinEvent) (app : App),
      (run_loop conv ext app events).2.1 = glue_trace conv events := by
  have huo : ∀ (a : App) (c : EventLoopControl),
      (handler conv ext a c GlueEvent.updateUi).outcome = Except.ok () :=
    fun a c => handler_update_outcome conv ext a c hd hf
  intro events
  induction events with
  | nil => intro app; rfl
  | cons e rest ih =>
    intro app
    simp only [run_loop, glue_trace, handler_glutin_outcome, handler_glutin_control,
      handler_update_control, huo, EventLoopControl.new]
    by_cases he : is_exit_event e = true
    · simp [he]
    · simp only [Bool.not_eq_true] at he
      by_cases hu : ((conv e).isSome || is_redraw_event e) = true
      · simp [he, hu, ih]
      · simp only [Bool.not_eq_true] at hu
        simp [he, hu, ih]

theorem glue_trace_glutin_mem (conv : GlutinEvent → Option ConrodEvent) :
    ∀ (events : List GlutinEvent) (e : GlutinEvent),
      GlueEvent.glutin e ∈ glue_trace conv events → e ∈ events := by
  intro events
  induction events with
  | nil => intro e h; simp [glue_trace] at h
  | cons e0 rest ih =>
    intro e h
    simp only [glue_trace] at h
    by_cases he : is_exit_event e0 = true
    · simp [he] at h
      simp [h]
    · simp only [Bool.not_eq_true] at he
      by_cases hu : ((conv e0).isSome || is_redraw_event e0) = true
      · simp [he, hu] at h
        rcases h with h | h
        · simp [h]
        · exact List.mem_cons_of_mem _ (ih e h)
      · simp only [Bool.not_eq_true] at hu
        simp [he, hu] at h
        rcases h with h | h
        · simp [h]
        · exact List.mem_cons_of_mem _ (ih e h)

theorem except_bind_ok {α β : Type} (a : α) (f : α → Except String β) :
    (Except.ok a >>= f) = f a := rfl

theorem except_bind_error {α β : Type} (msg : String) (f : α → Except String β) :
    ((Except.error msg : Except String α) >>= f) = Except.error msg := rfl

theorem handler_glutin_pending (conv : GlutinEvent → Option ConrodEvent)
    (ext : External) (app : App) (control : EventLoopControl) (e : GlutinEvent) :
    (handler conv ext app control (GlueEvent.glutin e)).app.ui.pending_events =
      (match conv e with
       | some ce => app.ui.pending_events ++ [ce]
       | none => app.ui.pending_events) := by
  cases e with
  | windowEvent we =>
    cases we with
    | keyboardInput input =>
      obtain ⟨st, vk⟩ := input
      cases vk with
      | none =>
        cases hc : conv (GlutinEvent.windowEvent (WindowEvent.keyboardInput ⟨st, none⟩)) <;>
          simp [handler, hc, Ui.handle_event, Ui.needs_redraw]
      | some k =>
        cases k with
        | escape =>
          cases hc : conv (GlutinEvent.windowEvent
              (WindowEvent.keyboardInput ⟨st, some VirtualKeyCode.escape⟩)) <;>
            simp [handler, hc, Ui.handle_event, Ui.needs_redraw]
        | otherKey kn =>
          cases hc : conv (GlutinEvent.windowEvent
              (WindowEvent.keyboardInput ⟨st, some (VirtualKeyCode.otherKey kn)⟩)) <;>
            simp [handler, hc, Ui.handle_event, Ui.needs_redraw]
    | closed =>
      cases hc : conv (GlutinEvent.windowEvent WindowEvent.closed) <;>
        simp [handler, hc, Ui.handle_event, Ui.needs_redraw]
    | refresh =>
      cases hc : conv (GlutinEvent.windowEvent WindowEvent.refresh) <;>
        simp [handler, hc, Ui.handle_event, Ui.needs_redraw]
    | resized w hh =>
      cases hc : conv (GlutinEvent.windowEvent (WindowEvent.resized w hh)) <;>
        simp [handler, hc, Ui.handle_event, Ui.needs_redraw]
    | otherWindow m =>
      cases hc : conv (GlutinEvent.windowEvent (WindowEvent.otherWindow m)) <;>
        simp [handler, hc, Ui.handle_event, Ui.needs_redraw]
  | awakened =>
    cases hc : conv GlutinEvent.awakened <;>
      simp [handler, hc, Ui.handle_event, Ui.needs_redraw]
  | otherEvent n =>
    cases hc : conv (GlutinEvent.otherEvent n) <;>
      simp [handler, hc, Ui.handle_event, Ui.needs_redraw]

theorem run_steps_ids (conv : GlutinEvent → Option ConrodEvent) (ext : External) :
    ∀ (evs : List GlueEvent) (a : App),
      (run_steps conv ext a evs).ids = a.ids ∧
      (run_steps conv ext a evs).ui.gen = a.ui.gen := by
  intro evs
  induction evs with
  | nil => intro a; exact ⟨rfl, rfl⟩
  | cons ev rest ih =>
    intro a
    have h1 := handler_app_ids conv ext a EventLoopControl.new ev
    have h2 := ih ((handler conv ext a EventLoopControl.new ev).app)
    refine ⟨?_, ?_⟩
    · show (run_steps conv ext ((handler conv ext a EventLoopControl.new ev).app) rest).ids = a.ids
      rw [h2.1, h1.1]
    · show (run_steps conv ext ((handler conv ext a EventLoopControl.new ev).app) rest).ui.gen =
        a.ui.gen
      rw [h2.2, h1.2]

/-- C1: every invocation of the Scene Builder (create_ui) builds a
widget tree consisting of exactly a root container that is colored
(grey), borderless (border width zero) and fills the window, followed
by a text label with literal text "hello" rendered in black and
centered in the root container. -/
theorem claim1 (app : App) :
    (create_ui app).ui.widgets =
      [ (app.ids.root,
          WidgetDescr.canvas
            { color_val := some Color.grey
            , border_val := some 0
            , position := Position.fillWindow })
      , (app.ids.label,
          WidgetDescr.text
            { text_val := "hello"
            , color_val := some Color.black
            , position := some (Position.middleOf app.ids.root) }) ] := rfl

/-- C2: on every update-requested event the Scene Builder runs first,
and the Frame Renderer steps (fill, draw, present) run if and only if
the draw-if-changed check yields primitives; when it yields none, no
GPU submission occurs. -/
theorem claim2 (conv : GlutinEvent → Option ConrodEvent) (ext : External)
    (app : App) (control : EventLoopControl)
    (hd : ext.draw_ok = true) (hf : ext.finish_ok = true) :
    (handler conv ext app control GlueEvent.updateUi).trace =
      Action.buildScene ::
        (if ((create_ui app).ui.draw_if_changed).1.isSome then
          [Action.fill, Action.draw, Action.finishFrame]
        else []) :=
  handler_update_trace conv ext app control hd hf

theorem claim2_witness :
    ext_ok.draw_ok = true ∧ ext_ok.finish_ok = true ∧
    (handler (fun _ => none) ext_ok app0 EventLoopControl.new GlueEvent.updateUi).trace =
      Action.buildScene ::
        (if ((create_ui app0).ui.draw_if_changed).1.isSome then
          [Action.fill, Action.draw, Action.finishFrame]
        else []) :=
  ⟨rfl, rfl, claim2 (fun _ => none) ext_ok app0 EventLoopControl.new rfl rfl⟩

/-- C3, counterexample to the claim as stated: dispatching an Escape
key RELEASE platform event — which is neither an Escape key press nor
a window-close event — also makes the handler request loop exit,
because the source pattern ignores the press or release state of the
keyboard input. -/
theorem claim3_counterexample :
    (handler (fun _ => none) ext_ok app0 EventLoopControl.new
      (GlueEvent.glutin (GlutinEvent.windowEvent (WindowEvent.keyboardInput
        { state := ElementState.released
        , virtual_keycode := some VirtualKeyCode.escape })))).control.exit_requested
      = true := by decide

/-- C3 (amended): the handler requests exit exactly on an Escape
keyboard-input platform event (press or release) or a window-close
event; an update-requested dispatch never changes the exit flag; and,
with GPU operations succeeding, the dispatch trace of the loop equals
glue_trace, which forwards every platform event in order and is cut
immediately after the first exit-triggering platform event, with no
other termination path. -/
theorem claim3_amended :
    (∀ (conv : GlutinEvent → Option ConrodEvent) (ext : External)
        (app : App) (e : GlutinEvent),
      (handler conv ext app EventLoopControl.new
          (GlueEvent.glutin e)).control.exit_requested = is_exit_event e) ∧
    (∀ (conv : GlutinEvent → Option ConrodEvent) (ext : External)
        (app : App) (c : EventLoopControl),
      (handler conv ext app c GlueEvent.updateUi).control.exit_requested =
        c.exit_requested) ∧
    (∀ (conv : GlutinEvent → Option ConrodEvent) (ext : External)
        (app : App) (events : List GlutinEvent),
      ext.draw_ok = true → ext.finish_ok = true →
      (run_loop conv ext app events).2.1 = glue_trace conv events) := by
  refine ⟨?_, ?_, ?_⟩
  · intro conv ext app e
    rw [handler_glutin_control]
    simp [EventLoopControl.new]
  · intro conv ext app c
    rw [handler_update_control]
  · intro conv ext app events hd hf
    exact run_loop_trace conv ext hd hf events app

theorem claim3_witness :
    ext_ok.draw_ok = true ∧ ext_ok.finish_ok = true ∧
    (run_loop (fun _ => none) ext_ok app0
        [GlutinEvent.awakened, GlutinEvent.windowEvent WindowEvent.closed,
         GlutinEvent.awakened]).2.1 =
      glue_trace (fun _ => none)
        [GlutinEvent.awakened, GlutinEvent.windowEvent WindowEvent.closed,
         GlutinEvent.awakened] ∧
    (handler (fun _ => none) ext_ok app0 EventLoopControl.new
        (GlueEvent.glutin (GlutinEvent.windowEvent
          WindowEvent.closed))).control.exit_requested =
      is_exit_event (GlutinEvent.windowEvent WindowEvent.closed) :=
  ⟨rfl, rfl,
   claim3_amended.2.2 (fun _ => none) ext_ok app0
     [GlutinEvent.awakened, GlutinEvent.windowEvent WindowEvent.closed,
      GlutinEvent.awakened] rfl rfl,
   claim3_amended.1 (fun _ => none) ext_ok app0
     (GlutinEvent.windowEvent WindowEvent.closed)⟩

/-- C4: the two widget identifiers come from the first two allocations
of the runtime generator at Application State construction (indices 0
and 1, leaving the generator at 2); dispatching any sequence of glue
events never changes the identifier registry or the generator; and
every frame the Scene Builder emits uses exactly the identifiers root
then label. -/
theorem claim4 (ext : External) (window : Display) (app : App)
    (h : App.new ext window = Except.ok app) :
    app.ids.root = 0 ∧ app.ids.label = 1 ∧ app.ui.gen.next_index = 2 ∧
    (∀ (conv : GlutinEvent → Option ConrodEvent) (fext : External)
        (evs : List GlueEvent),
      (run_steps conv fext app evs).ids = app.ids ∧
      (run_steps conv fext app evs).ui.gen = app.ui.gen) ∧
    (∀ a : App, (create_ui a).ui.widgets.map Prod.fst = [a.ids.root, a.ids.label]) := by
  rcases his : ext.inner_size with _ | wh
  · simp [App.new, expectMsg, his, except_bind_error] at h
  · rcases hrn : ext.renderer_new with _ | r
    · simp [App.new, expectMsg, his, hrn, except_bind_ok, except_bind_error] at h
    · simp [App.new, expectMsg, his, hrn, except_bind_ok, except_bind_error] at h
      subst h
      refine ⟨rfl, rfl, rfl, ?_, ?_⟩
      · intro conv fext evs
        exact run_steps_ids conv fext evs _
      · intro a
        rfl

theorem claim4_witness :
    App.new ext_ok display0 = Except.ok app_new0 ∧
    app_new0.ids.root = 0 ∧ app_new0.ids.label = 1 ∧
    app_new0.ui.gen.next_index = 2 ∧
    (run_steps (fun _ => none) ext_ok app_new0
        [GlueEvent.updateUi, GlueEvent.glutin GlutinEvent.awakened]).ids = app_new0.ids :=
  ⟨rfl,
   (claim4 ext_ok display0 app_new0 rfl).1,
   (claim4 ext_ok display0 app_new0 rfl).2.1,
   (claim4 ext_ok display0 app_new0 rfl).2.2.1,
   ((claim4 ext_ok display0 app_new0 rfl).2.2.2.1 (fun _ => none) ext_ok
     [GlueEvent.updateUi, GlueEvent.glutin GlutinEvent.awakened]).1⟩

/-- C5: dispatching a window refresh or resize platform event marks the
GUI runtime as needing a full redraw and requests an update, and the
draw-if-changed check performed after the next scene rebuild yields
primitives even though the visual content is unchanged. -/
theorem claim5 (conv : GlutinEvent → Option ConrodEvent) (ext : External)
    (app : App) (control : EventLoopControl) (we : WindowEvent)
    (hwe : we = WindowEvent.refresh ∨ ∃ w hh, we = WindowEvent.resized w hh) :
    ((handler conv ext app control
        (GlueEvent.glutin (GlutinEvent.windowEvent we))).app.ui.redraw_forced = true) ∧
    ((handler conv ext app control
        (GlueEvent.glutin (GlutinEvent.windowEvent we))).control.update_requested = true) ∧
    (((create_ui (handler conv ext app control
        (GlueEvent.glutin (GlutinEvent.windowEvent we))).app).ui.draw_if_changed).1.isSome
      = true) := by
  rcases hwe with hwe | ⟨w, hh, hwe⟩ <;> subst hwe
  · cases hc : conv (GlutinEvent.windowEvent WindowEvent.refresh) <;>
      simp [handler, hc, Ui.handle_event, Ui.needs_redraw, EventLoopControl.needs_update,
        create_ui_ui, Ui.draw_if_changed]
  · cases hc : conv (GlutinEvent.windowEvent (WindowEvent.resized w hh)) <;>
      simp [handler, hc, Ui.handle_event, Ui.needs_redraw, EventLoopControl.needs_update,
        create_ui_ui, Ui.draw_if_changed]

theorem claim5_witness :
    ((handler (fun _ => none) ext_ok app0 EventLoopControl.new
        (GlueEvent.glutin (GlutinEvent.windowEvent
          WindowEvent.refresh))).app.ui.redraw_forced = true) ∧
    ((handler (fun _ => none) ext_ok app0 EventLoopControl.new
        (GlueEvent.glutin (GlutinEvent.windowEvent
          WindowEvent.refresh))).control.update_requested = true) ∧
    (((create_ui (handler (fun _ => none) ext_ok app0 EventLoopControl.new
        (GlueEvent.glutin (GlutinEvent.windowEvent
          WindowEvent.refresh))).app).ui.draw_if_changed).1.isSome = true) :=
  claim5 (fun _ => none) ext_ok app0 EventLoopControl.new WindowEvent.refresh (Or.inl rfl)

/-- C6: for every platform event, when the external converter
translates it the translated event is appended to the GUI runtime
event queue and an update is requested; when it does not translate,
the queue is unchanged and the update flag is exactly what the other
dispatch arms (refresh, resize, Awakened) would set. -/
theorem claim6 (conv : GlutinEvent → Option ConrodEvent) (ext : External)
    (app : App) (control : EventLoopControl) (e : GlutinEvent) :
    match conv e with
    | some ce =>
        (handler conv ext app control (GlueEvent.glutin e)).app.ui.pending_events =
          app.ui.pending_events ++ [ce] ∧
        (handler conv ext app control (GlueEvent.glutin e)).control.update_requested = true
    | none =>
        (handler conv ext app control (GlueEvent.glutin e)).app.ui.pending_events =
          app.ui.pending_events ∧
        (handler conv ext app control (GlueEvent.glutin e)).control.update_requested =
          (control.update_requested || is_redraw_event e) := by
  have hp := handler_glutin_pending conv ext app control e
  have hcc := handler_glutin_control conv ext app control e
  cases hc : conv e with
  | some ce =>
    rw [hc] at hp
    refine ⟨hp, ?_⟩
    rw [hcc]
    simp [hc]
  | none =>
    rw [hc] at hp
    refine ⟨hp, ?_⟩
    rw [hcc]
    simp [hc]

/-- C7: running the Scene Builder twice in succession with no
intervening state change makes the second draw-if-changed check yield
no primitives, so the second update dispatch performs no GPU
submission (its trace is the scene rebuild alone). -/
theorem claim7 (conv : GlutinEvent → Option ConrodEvent) (ext : External)
    (app : App) (control control2 : EventLoopControl)
    (hd : ext.draw_ok = true) (hf : ext.finish_ok = true) :
    (((create_ui (handler conv ext app control
        GlueEvent.updateUi).app).ui.draw_if_changed).1 = none) ∧
    ((handler conv ext (handler conv ext app control GlueEvent.updateUi).app control2
        GlueEvent.updateUi).trace = [Action.buildScene]) := by
  have e1 := handler_update_app_eq conv ext app control
  have hafter := draw_if_changed_after ((create_ui app).ui)
  set r1 := (handler conv ext app control GlueEvent.updateUi).app with hr1
  have hids : r1.ids = app.ids := by rw [e1]; rfl
  have hnone : ((create_ui r1).ui.draw_if_changed).1 = none := by
    apply draw_if_changed_none_of_unchanged
    · show r1.ui.redraw_forced = false
      rw [e1]
      exact hafter.2.1
    · show r1.ui.prev_primitives = some (scene r1.ids)
      rw [hids, e1]
      exact hafter.1
  refine ⟨hnone, ?_⟩
  have htr := handler_update_trace conv ext r1 control2 hd hf
  rw [hnone] at htr
  simpa using htr

theorem claim7_witness :
    ext_ok.draw_ok = true ∧ ext_ok.finish_ok = true ∧
    (((create_ui (handler (fun _ => none) ext_ok app0 EventLoopControl.new
        GlueEvent.updateUi).app).ui.draw_if_changed).1 = none) ∧
    ((handler (fun _ => none) ext_ok
        (handler (fun _ => none) ext_ok app0 EventLoopControl.new GlueEvent.updateUi).app
        EventLoopControl.new GlueEvent.updateUi).trace = [Action.buildScene]) :=
  ⟨rfl, rfl,
   (claim7 (fun _ => none) ext_ok app0 EventLoopControl.new EventLoopControl.new rfl rfl).1,
   (claim7 (fun _ => none) ext_ok app0 EventLoopControl.new EventLoopControl.new rfl rfl).2⟩

/-- C8: every failure surfaces immediately as a process abort with its
descriptive diagnostic message — font parse failure, window creation
failure, window-size query failure, renderer initialization failure,
draw failure and present failure each produce their specific message —
and initialization succeeds exactly when every external call succeeds,
so no failure is caught, logged-and-continued, or degraded. -/
theorem claim8 (ext : External) :
    (isOk (init_window ext) = true ↔
      (ext.display_ok = true ∧ ext.inner_size.isSome = true ∧
       ext.renderer_new.isSome = true ∧ ext.font_parse.isSome = true)) ∧
    (ext.font_parse = none →
      load_font ext =
        Except.error "expected loading embedded OpenSans-Regular.ttf font to succeed") ∧
    (ext.display_ok = false →
      init_window ext =
        Except.error "expected initial window creation to succeed") ∧
    (∀ window : Display, ext.inner_size = none →
      App.new ext window =
        Except.error "expected getting window size to succeed.") ∧
    (∀ (window : Display) (wh : Nat × Nat),
      ext.inner_size = some wh → ext.renderer_new = none →
      App.new ext window =
        Except.error "expected loading conrod glium renderer to succeed.") ∧
    (∀ (conv : GlutinEvent → Option ConrodEvent) (app : App) (c : EventLoopControl),
      ext.draw_ok = false →
      ((create_ui app).ui.draw_if_changed).1.isSome = true →
      (handler conv ext app c GlueEvent.updateUi).outcome =
        Except.error "expected drawing GUI to display to succeed") ∧
    (∀ (conv : GlutinEvent → Option ConrodEvent) (app : App) (c : EventLoopControl),
      ext.draw_ok = true → ext.finish_ok = false →
      ((create_ui app).ui.draw_if_changed).1.isSome = true →
      (handler conv ext app c GlueEvent.updateUi).outcome =
        Except.error "expected frame to remain unfinished before calling finish.") := by
  refine ⟨?_, ?_, ?_, ?_, ?_, ?_, ?_⟩
  · rcases hds : ext.display_ok with _ | _ <;>
      rcases his : ext.inner_size with _ | wh <;>
        rcases hrn : ext.renderer_new with _ | r <;>
          rcases hfp : ext.font_parse with _ | f <;>
            simp [init_window, App.new, load_font, rusttype_into_font, glium_display_new,
              expectMsg, hds, his, hrn, hfp, except_bind_ok, except_bind_error, isOk]
  · intro h
    simp [load_font, rusttype_into_font, expectMsg, h]
  · intro h
    simp [init_window, glium_display_new, expectMsg, h, except_bind_error]
  · intro window h
    simp [App.new, expectMsg, h, except_bind_error]
  · intro window wh h1 h2
    simp [App.new, expectMsg, h1, h2, except_bind_ok, except_bind_error]
  · intro conv app c hdf hsome
    simp only [handler]
    rcases hmatch : (create_ui app).ui.draw_if_changed with ⟨op, ui2⟩
    rcases op with _ | p
    · rw [hmatch] at hsome
      simp at hsome
    · simp [hmatch, hdf]
  · intro conv app c hdt hff hsome
    simp only [handler]
    rcases hmatch : (create_ui app).ui.draw_if_changed with ⟨op, ui2⟩
    rcases op with _ | p
    · rw [hmatch] at hsome
      simp at hsome
    · simp [hmatch, hdt, hff]

theorem claim8_witness :
    ext_nofont.font_parse = none ∧
    load_font ext_nofont =
      Except.error "expected loading embedded OpenSans-Regular.ttf font to succeed" ∧
    isOk (init_window ext_ok) = true :=
  ⟨rfl, (claim8 ext_nofont).2.1 rfl, (claim8 ext_ok).1.mpr ⟨rfl, rfl, rfl, rfl⟩⟩

/-- C9: window initialization always requests exactly the fixed
parameters: initial size 640x480, title "the-conrod-application",
vertical sync enabled, 4x multisampling; and every successfully
created drawing surface carries exactly those requested parameters. -/
theorem claim9 :
    window_builder.dimensions = (640, 480) ∧
    window_builder.title = "the-conrod-application" ∧
    context_builder.vsync = true ∧
    context_builder.multisampling = 4 ∧
    ∀ (ext : External) (el : EventsLoop) (app : App),
      init_window ext = Except.ok (el, app) →
      app.display.window = window_builder ∧ app.display.context = context_builder := by
  refine ⟨rfl, rfl, rfl, rfl, ?_⟩
  intro ext el app h
  rcases hds : ext.display_ok with _ | _
  · simp [init_window, glium_display_new, expectMsg, hds, except_bind_error] at h
  · rcases his : ext.inner_size with _ | wh
    · simp [init_window, App.new, glium_display_new, expectMsg, hds, his,
        except_bind_ok, except_bind_error] at h
    · rcases hrn : ext.renderer_new with _ | r
      · simp [init_window, App.new, glium_display_new, expectMsg, hds, his, hrn,
          except_bind_ok, except_bind_error] at h
      · rcases hfp : ext.font_parse with _ | f
        · simp [init_window, App.new, load_font, rusttype_into_font, glium_display_new,
            expectMsg, hds, his, hrn, hfp, except_bind_ok, except_bind_error] at h
        · simp [init_window, App.new, load_font, rusttype_into_font, glium_display_new,
            expectMsg, hds, his, hrn, hfp, except_bind_ok, except_bind_error] at h
          rw [← h.2]
          exact ⟨rfl, rfl⟩

theorem claim9_witness :
    init_window ext_ok = Except.ok (EventsLoop.new, app0) ∧
    app0.display.window = window_builder ∧
    app0.display.context = context_builder :=
  ⟨rfl,
   (claim9.2.2.2.2 ext_ok EventsLoop.new app0 rfl).1,
   (claim9.2.2.2.2 ext_ok EventsLoop.new app0 rfl).2⟩

/-- C10: dispatching an Awakened platform event marks the GUI runtime
as needing a full redraw and requests an update — the branch is
implemented in the dispatch code — while the loop glue itself never
manufactures an Awakened event: with GPU operations succeeding, no
Awakened dispatch appears in the loop trace unless the platform
produced one. -/
theorem claim10 (conv : GlutinEvent → Option ConrodEvent) (ext : External)
    (app : App) (control : EventLoopControl) :
    ((handler conv ext app control
        (GlueEvent.glutin GlutinEvent.awakened)).app.ui.redraw_forced = true) ∧
    ((handler conv ext app control
        (GlueEvent.glutin GlutinEvent.awakened)).control.update_requested = true) ∧
    (∀ events : List GlutinEvent,
      ext.draw_ok = true → ext.finish_ok = true →
      GlutinEvent.awakened ∉ events →
      GlueEvent.glutin GlutinEvent.awakened ∉ (run_loop conv ext app events).2.1) := by
  refine ⟨?_, ?_, ?_⟩
  · cases hc : conv GlutinEvent.awakened <;>
      simp [handler, hc, Ui.handle_event, Ui.needs_redraw, EventLoopControl.needs_update]
  · cases hc : conv GlutinEvent.awakened <;>
      simp [handler, hc, Ui.handle_event, Ui.needs_redraw, EventLoopControl.needs_update]
  · intro events hd hf hmem hcontra
    rw [run_loop_trace conv ext hd hf events app] at hcontra
    exact hmem (glue_trace_glutin_mem conv events GlutinEvent.awakened hcontra)

theorem claim10_witness :
    ((handler (fun _ => none) ext_ok app0 EventLoopControl.new
        (GlueEvent.glutin GlutinEvent.awakened)).app.ui.redraw_forced = true) ∧
    ((handler (fun _ => none) ext_ok app0 EventLoopControl.new
        (GlueEvent.glutin GlutinEvent.awakened)).control.update_requested = true) ∧
    (GlueEvent.glutin GlutinEvent.awakened ∉
      (run_loop (fun _ => none) ext_ok app0
        [GlutinEvent.otherEvent 7, GlutinEvent.windowEvent WindowEvent.refresh]).2.1) :=
  ⟨(claim10 (fun _ => none) ext_ok app0 EventLoopControl.new).1,
   (claim10 (fun _ => none) ext_ok app0 EventLoopControl.new).2.1,
   (claim10 (fun _ => none) ext_ok app0 EventLoopControl.new).2.2
     [GlutinEvent.otherEvent 7, GlutinEvent.windowEvent WindowEvent.refresh]
     rfl rfl (by decide)⟩

end ConrodApp
